import Mathlib

/-!
Shallow embedding of the presenze-backend core (hours computation over
weekly contractual schedules, absence and overtime records, and the
user-account administration endpoints), together with theorems checking
the specification's claims against it.

Conventions of the embedding:
* Python `datetime.time` values (always in `[0, 24h)`) are `Fin secondsPerDay`
  (seconds within the day); `datetime.datetime` values are `Int` (seconds on
  an absolute axis); `datetime.date` values are `Nat` proleptic-Gregorian
  ordinals (as produced by `date.toordinal()`, so ordinal 1 is a Monday and
  `weekday() = (ordinal - 1) % 7` with Monday = 0).
* `timedelta` results are `Int` seconds; the floats produced by
  `total_seconds() / 3600.0` are idealised as exact rationals `ℚ`.
* Nullable model fields are `Option`; Django's related-object stores are
  explicit lists passed to the functions that query them.
-/

/-- Seconds in 24 hours, the day added by band-duration computation when a
band crosses midnight. -/
def secondsPerDay : Nat := 86400

/-- Embedding of the `OrariContrattuali` model: one row of the weekly
schedule of a contract, keyed by `(contratto, dow)` with `dow` being
1 = Monday .. 7 = Sunday, holding up to three optional time bands. -/
structure OrariContrattuali where
  contratto : Nat
  dow : Nat
  f1_start : Option (Fin secondsPerDay)
  f1_end : Option (Fin secondsPerDay)
  f2_start : Option (Fin secondsPerDay)
  f2_end : Option (Fin secondsPerDay)
  f3_start : Option (Fin secondsPerDay)
  f3_end : Option (Fin secondsPerDay)
  deriving DecidableEq

namespace OrariContrattuali

/-- Embedding of `OrariContrattuali._calculate_duration`: duration in seconds
of one band.  A missing endpoint yields `timedelta(0)`; otherwise the code
anchors both times on the same date and, when the end falls strictly before
the start, moves the end one day forward before subtracting. -/
def calculate_duration : Option (Fin secondsPerDay) → Option (Fin secondsPerDay) → Int
  | some s, some e =>
      if (e : Int) < (s : Int) then ((e : Int) + (secondsPerDay : Int)) - (s : Int)
      else (e : Int) - (s : Int)
  | none, _ => 0
  | some _, none => 0

/-- Embedding of the `delta_f1` property. -/
def delta_f1 (o : OrariContrattuali) : Int := calculate_duration o.f1_start o.f1_end

/-- Embedding of the `delta_f2` property. -/
def delta_f2 (o : OrariContrattuali) : Int := calculate_duration o.f2_start o.f2_end

/-- Embedding of the `delta_f3` property. -/
def delta_f3 (o : OrariContrattuali) : Int := calculate_duration o.f3_start o.f3_end

/-- Embedding of the `ore_giorno` property: total seconds of the three bands
divided by 3600. -/
def ore_giorno (o : OrariContrattuali) : ℚ :=
  ((o.delta_f1 + o.delta_f2 + o.delta_f3 : Int) : ℚ) / 3600

end OrariContrattuali

/-- Embedding of `self.contratto.orari.get(dow=...)`: Django's `get` over the
rows whose `contratto` and `dow` match.  It returns the row when exactly one
matches; with zero matches it raises `DoesNotExist` and with several (which
the `unique_together ('contratto', 'dow')` constraint rules out in a stored
table) `MultipleObjectsReturned` — both exceptional cases are `none` here,
and the caller in `Assenza.ore` catches both and yields `0.0`. -/
def orariGet (db : List OrariContrattuali) (c : Nat) (d : Nat) :
    Option OrariContrattuali :=
  match db.filter (fun o => o.contratto == c && o.dow == d) with
  | [o] => some o
  | _ => none

/-- Embedding of the `Assenza` model (one absence record).  `data` is an
optional date ordinal; `inizio`/`fine` are the optional timestamps of a
part-day absence.  The bookkeeping links (`utente_inserimento`,
`utente_approvazione`) play no part in the computed properties and are
omitted. -/
structure Assenza where
  contratto : Nat
  tipo_assenza : Nat
  data : Option Nat
  giornata_intera : Bool
  inizio : Option Int
  fine : Option Int
  id_nazionale : Option String
  approvata : Bool
  deriving DecidableEq

namespace Assenza

/-- Embedding of `Assenza.dow`: `data.weekday() + 1` when the date is set
(1 = Monday .. 7 = Sunday), `None` otherwise.  On proleptic ordinals
`weekday()` is `(ordinal - 1) % 7`. -/
def dow (a : Assenza) : Option Nat :=
  a.data.map (fun d => (d - 1) % 7 + 1)

/-- Embedding of `Assenza.ore`.  Branches in source order: no date yields
`0.0`; a part-day record (flag false) with both timestamps present and
`fine > inizio` yields the interval length in decimal hours; a full-day
record looks up the schedule row for `(contratto, dow)` and yields its
`ore_giorno`, with every lookup exception caught and mapped to `0.0`;
anything else yields `0.0`. -/
def ore (db : List OrariContrattuali) (a : Assenza) : ℚ :=
  match a.data with
  | none => 0
  | some d =>
    match a.giornata_intera, a.inizio, a.fine with
    | false, some i, some f =>
        if i < f then ((f - i : Int) : ℚ) / 3600
        else 0
    | false, _, _ => 0
    | true, _, _ =>
        match orariGet db a.contratto ((d - 1) % 7 + 1) with
        | some o => o.ore_giorno
        | none => 0

end Assenza

/-- Embedding of the `Straordinario` model (one overtime record).  The
timestamps are `Option` because the computed properties guard against
missing values even though stored rows always carry both. -/
structure Straordinario where
  contratto : Nat
  inizio : Option Int
  fine : Option Int
  deriving DecidableEq

namespace Straordinario

/-- Embedding of `Straordinario.delta`: `fine - inizio` in seconds when both
timestamps are present and `fine > inizio`, else `timedelta(0)`. -/
def delta (s : Straordinario) : Int :=
  match s.inizio, s.fine with
  | some i, some f => if i < f then f - i else 0
  | _, _ => 0

/-- Embedding of `Straordinario.ore_svolte`: `delta` in decimal hours. -/
def ore_svolte (s : Straordinario) : ℚ := ((s.delta : Int) : ℚ) / 3600

end Straordinario

/-!
Account administration (`apps/utenti`).  An `Account` is one row of Django's
user table; the table itself is a `List Account`, and each endpoint of
`UtenteViewSet` is a function from the table, the authenticated actor and
the URL `pk` to a `Resp` (the HTTP outcome) and the table afterwards.  The
password hasher is an external collaborator, passed in as an opaque
`String → String`.  The auto-set timestamps (`date_joined`, `last_login`)
play no part in any claim and are omitted.
-/

/-- One row of the user table, with the role flags and the stored (hashed)
credential. -/
structure Account where
  id : Nat
  username : String
  email : String
  first_name : String
  last_name : String
  password : String
  is_active : Bool
  is_staff : Bool
  is_superuser : Bool
  deriving DecidableEq

/-- Body produced by `UtenteDettaglioSerializer`: the public view of an
account.  Its fields are exactly the serializer's field list (minus the two
auto timestamps); in particular there is no password field. -/
structure UtenteDettaglio where
  id : Nat
  username : String
  email : String
  first_name : String
  last_name : String
  is_active : Bool
  is_staff : Bool
  deriving DecidableEq

/-- Serialisation of an account through `UtenteDettaglioSerializer`. -/
def utenteDettaglio (u : Account) : UtenteDettaglio :=
  { id := u.id, username := u.username, email := u.email,
    first_name := u.first_name, last_name := u.last_name,
    is_active := u.is_active, is_staff := u.is_staff }

/-- HTTP outcome of an endpoint, as the framework reports it to the client:
a success status (with the created body for 201), or a 403 / 404 / 400
failure carrying its detail, or a 500 when an exception the framework does
not translate escapes the view. -/
inductive Resp where
  | ok200
  | ok204
  | created (body : UtenteDettaglio)
  | forbidden (detail : String)
  | notFound (detail : String)
  | validationError (campo : String) (detail : String)
  | serverError (detail : String)
  deriving DecidableEq

/-- Detail string of `UtenteViewSet.activate` on a failed authorization. -/
def msgAttiva : String := "Non hai il permesso di attivare questo utente."

/-- Detail string of `UtenteViewSet.deactivate` on a failed authorization. -/
def msgDisattiva : String := "Non hai il permesso di disattivare questo utente."

/-- Detail string of activate/deactivate when the target id does not
resolve. -/
def msgUtenteNonTrovato : String := "Utente non trovato."

/-- Detail string of `UtenteViewSet.set_password` on a failed
authorization. -/
def msgSetPassword : String :=
  "Non hai il permesso di cambiare la password di questo utente."

/-- Error message both password serializers attach to the `password` field
when the two entered passwords differ. -/
def msgPasswordMismatch : String := "I campi password devono corrispondere."

/-- Message of the `PermissionError` raised by
`NonCancellareSuperuser.has_object_permission`. -/
def msgNonCancellareSuperuser : String :=
  "Non è permesso cancellare un superuser."

/-- Detail string DRF attaches to a failed permission check (403). -/
def msgPermissionDenied : String :=
  "You do not have permission to perform this action."

/-- Detail string DRF attaches to an `Http404` raised by `get_object`. -/
def msgHttp404 : String := "Not found."

/-- The permission classes of the view layer. -/
inductive PermClass where
  | isAuthenticated
  | isAdminUser
  | allowAny
  | nonCancellareSuperuser
  deriving DecidableEq

/-- The actions `UtenteViewSet` can be dispatched on. -/
inductive ViewAction where
  | list
  | retrieve
  | update
  | patch_update
  | destroy
  | me
  | registra
  | activate
  | deactivate
  | set_password
  deriving DecidableEq

/-- Embedding of `UtenteViewSet.get_permissions` together with the
per-action `@action(permission_classes=...)` override: the five generic
CRUD actions demand an admin, `me` only authentication, `registra` is
declared with `AllowAny`, and every other action keeps the class default
`[IsAuthenticated, NonCancellareSuperuser]`.  (`patch_update` embeds the
action Django names partial update, PATCH.) -/
def get_permissions : ViewAction → List PermClass
  | .list | .retrieve | .update | .patch_update | .destroy =>
      [.isAdminUser, .nonCancellareSuperuser]
  | .me => [.isAuthenticated]
  | .registra => [.allowAny]
  | _ => [.isAuthenticated, .nonCancellareSuperuser]

/-- HTTP request methods. -/
inductive HttpMethod where
  | GET
  | POST
  | PUT
  | PATCH
  | DELETE
  deriving DecidableEq

/-- Embedding of `NonCancellareSuperuser.has_permission`: every request
passes the view-level check. -/
def nonCancellareSuperuser_has_permission (_ : HttpMethod) : Bool := true

/-- Embedding of `NonCancellareSuperuser.has_object_permission`.  For a
`DELETE` aimed at a superuser the code raises the *builtin*
`PermissionError` (modelled as `.error`) instead of returning `False`; every
other case returns `True`.  Note the builtin `PermissionError` is not the
`PermissionDenied` the framework translates into a 403, so an `.error`
outcome escapes as a server error. -/
def nonCancellareSuperuser_has_object_permission (method : HttpMethod)
    (obj : Account) : Except String Bool :=
  match method with
  | .DELETE =>
      if obj.is_superuser then Except.error msgNonCancellareSuperuser
      else Except.ok true
  | _ => Except.ok true

/-- Embedding of `User.objects.get(pk=pk)` (and of DRF's `get_object`
lookup): the first row whose id matches.  Stored tables have unique ids, so
first-match agrees with the database lookup. -/
def findUser (db : List Account) (pk : Nat) : Option Account :=
  db.find? (fun u => u.id == pk)

/-- Embedding of `user.save()` on an existing row: the row with the same id
is replaced, every other row is untouched. -/
def saveUser (db : List Account) (u : Account) : List Account :=
  db.map (fun v => if v.id == u.id then u else v)

/-- Embedding of `UtenteViewSet.activate` (POST `/api/utenti/{id}/activate/`):
forbidden unless the actor is a superuser distinct from the target, 404 when
the id does not resolve, otherwise the target's `is_active` is set to `True`
and saved. -/
def activate (db : List Account) (actor : Account) (pk : Nat) :
    Resp × List Account :=
  if !actor.is_superuser || actor.id == pk then
    (.forbidden msgAttiva, db)
  else
    match findUser db pk with
    | none => (.notFound msgUtenteNonTrovato, db)
    | some u => (.ok200, saveUser db { u with is_active := true })

/-- Embedding of `UtenteViewSet.deactivate` (DELETE
`/api/utenti/{id}/deactivate/`): same authorization and lookup as
`activate`, setting `is_active` to `False`. -/
def deactivate (db : List Account) (actor : Account) (pk : Nat) :
    Resp × List Account :=
  if !actor.is_superuser || actor.id == pk then
    (.forbidden msgDisattiva, db)
  else
    match findUser db pk with
    | none => (.notFound msgUtenteNonTrovato, db)
    | some u => (.ok200, saveUser db { u with is_active := false })

/-- Embedding of `UtenteViewSet.set_password` (POST
`/api/utenti/{id}/set-password/`): forbidden when the actor is neither a
superuser nor the target itself; then `get_object` resolves the target
(404 when absent; its object-permission check runs `NonCancellareSuperuser`
on a POST, which always passes); then the password serializer validates the
two fields and, on success, stores the hashed password on the target. -/
def set_password (hash : String → String) (db : List Account)
    (actor : Account) (pk : Nat) (pw pw2 : String) : Resp × List Account :=
  if !actor.is_superuser && actor.id != pk then
    (.forbidden msgSetPassword, db)
  else
    match findUser db pk with
    | none => (.notFound msgHttp404, db)
    | some u =>
      match nonCancellareSuperuser_has_object_permission .POST u with
      | .error m => (.serverError m, db)
      | .ok false => (.forbidden msgPermissionDenied, db)
      | .ok true =>
          if pw ≠ pw2 then (.validationError "password" msgPasswordMismatch, db)
          else (.ok200, saveUser db { u with password := hash pw })

/-- Payload accepted by `UtenteRegistrazioneSerializer`; `email`,
`first_name` and `last_name` fall back to the empty string when absent, as
in `create` (`validated_data.get(..., '')`). -/
structure RegistrazionePayload where
  username : String
  email : Option String
  password : String
  password2 : String
  first_name : Option String
  last_name : Option String
  deriving DecidableEq

/-- Embedding of `User.objects.create_user` as called by the registration
serializer: a fresh row with the hashed password and Django's defaults for
the flags (`is_active=True`, `is_staff=False`, `is_superuser=False`). -/
def create_user (newId : Nat) (hash : String → String)
    (p : RegistrazionePayload) : Account :=
  { id := newId, username := p.username, email := p.email.getD "",
    first_name := p.first_name.getD "", last_name := p.last_name.getD "",
    password := hash p.password, is_active := true, is_staff := false,
    is_superuser := false }

/-- Embedding of `UtenteViewSet.registra` (POST `/api/utenti/registra/`,
`AllowAny`): the serializer rejects mismatched passwords with a field error
on `password` and creates nothing; otherwise one user is created and its
public view returned with 201. -/
def registra (hash : String → String) (db : List Account) (newId : Nat)
    (p : RegistrazionePayload) : Resp × List Account :=
  if p.password ≠ p.password2 then
    (.validationError "password" msgPasswordMismatch, db)
  else
    let u := create_user newId hash p
    (.created (utenteDettaglio u), db ++ [u])

/-- Embedding of the generic DELETE `/api/utenti/{id}/` flow for the
`destroy` action: `get_permissions` demands `IsAdminUser` (and
`NonCancellareSuperuser`, whose view-level check passes), so a non-staff
actor is refused; then `get_object` resolves the target and runs the
object-level checks, where `NonCancellareSuperuser` raises on a superuser
target — an exception the framework does not translate, surfacing as a
server error; only then is the row deleted. -/
def destroy (db : List Account) (actor : Account) (pk : Nat) :
    Resp × List Account :=
  if !(actor.is_staff && nonCancellareSuperuser_has_permission .DELETE) then
    (.forbidden msgPermissionDenied, db)
  else
    match findUser db pk with
    | none => (.notFound msgHttp404, db)
    | some u =>
      match nonCancellareSuperuser_has_object_permission .DELETE u with
      | .error m => (.serverError m, db)
      | .ok false => (.forbidden msgPermissionDenied, db)
      | .ok true => (.ok204, db.filter (fun v => v.id != pk))

/-!
Concrete records used to instantiate the theorems below at runnable
inputs. -/

/-- Nine in the morning, as seconds of the day. -/
def t0900 : Fin secondsPerDay := ⟨32400, by decide⟩

/-- One in the afternoon. -/
def t1300 : Fin secondsPerDay := ⟨46800, by decide⟩

/-- Two in the afternoon. -/
def t1400 : Fin secondsPerDay := ⟨50400, by decide⟩

/-- Six in the evening. -/
def t1800 : Fin secondsPerDay := ⟨64800, by decide⟩

/-- Ten in the evening. -/
def t2200 : Fin secondsPerDay := ⟨79200, by decide⟩

/-- Two past midnight. -/
def t0200 : Fin secondsPerDay := ⟨7200, by decide⟩

/-- Monday schedule row of contract 1: 09:00-13:00 and 14:00-18:00. -/
def orario1 : OrariContrattuali :=
  { contratto := 1, dow := 1, f1_start := some t0900, f1_end := some t1300,
    f2_start := some t1400, f2_end := some t1800, f3_start := none,
    f3_end := none }

/-- A full-day absence on a Monday (ordinal 1) of contract 1 that also
carries a valid two-hour `inizio`/`fine` interval. -/
def assenzaPiena : Assenza :=
  { contratto := 1, tipo_assenza := 1, data := some 1,
    giornata_intera := true, inizio := some 0, fine := some 7200,
    id_nazionale := none, approvata := false }

/-- A part-day absence on a Monday of contract 1 lasting two hours. -/
def assenzaParziale : Assenza :=
  { contratto := 1, tipo_assenza := 1, data := some 1,
    giornata_intera := false, inizio := some 0, fine := some 7200,
    id_nazionale := none, approvata := false }

/-- A plain full-day absence on a Monday of contract 1. -/
def assenzaIntera : Assenza :=
  { contratto := 1, tipo_assenza := 1, data := some 1,
    giornata_intera := true, inizio := none, fine := none,
    id_nazionale := none, approvata := false }

/-- A ninety-minute overtime record of contract 1. -/
def straordinario1 : Straordinario :=
  { contratto := 1, inizio := some 0, fine := some 5400 }

/-- A staff superuser account. -/
def admin : Account :=
  { id := 1, username := "admin", email := "admin@example.com",
    first_name := "Ada", last_name := "Root", password := "h0",
    is_active := true, is_staff := true, is_superuser := true }

/-- A plain account with no role flags, currently inactive. -/
def mario : Account :=
  { id := 2, username := "mario", email := "mario@example.com",
    first_name := "Mario", last_name := "Rossi", password := "h1",
    is_active := false, is_staff := false, is_superuser := false }

/-- A second superuser account, the target of the deletion guard. -/
def capo : Account :=
  { id := 3, username := "capo", email := "capo@example.com",
    first_name := "Carla", last_name := "Capo", password := "h2",
    is_active := true, is_staff := true, is_superuser := true }

/-- A two-row user table. -/
def db0 : List Account := [admin, mario]

/-- A three-row user table holding a second superuser. -/
def db1 : List Account := [admin, mario, capo]

/-- A registration payload whose two password fields agree. -/
def payloadBuona : RegistrazionePayload :=
  { username := "x", email := some "x@example.com", password := "p1",
    password2 := "p1", first_name := none, last_name := none }

/-- A registration payload whose two password fields differ. -/
def payloadCattiva : RegistrazionePayload :=
  { username := "x", email := none, password := "p1", password2 := "p2",
    first_name := none, last_name := none }

/-!
Helper lemmas about the user-table primitives, shared by the claim
theorems below.
-/

/-- A row returned by `findUser` carries the looked-up id. -/
theorem findUser_id {db : List Account} {pk : Nat} {u : Account}
    (h : findUser db pk = some u) : u.id = pk := by
  have hb := List.find?_some h
  simpa using hb

/-- A row returned by `findUser` is in the table. -/
theorem findUser_mem {db : List Account} {pk : Nat} {u : Account}
    (h : findUser db pk = some u) : u ∈ db :=
  List.mem_of_find?_eq_some h

/-- Saving a row that keeps the id of the row `findUser` returns makes the
saved row what `findUser` returns afterwards. -/
theorem findUser_saveUser {db : List Account} {pk : Nat} {u : Account}
    (v : Account) (h : findUser db pk = some u) (hv : v.id = u.id) :
    findUser (saveUser db v) pk = some v := by
  have hu : u.id = pk := findUser_id h
  induction db with
  | nil => simp [findUser] at h
  | cons w ws ih =>
    by_cases hw : w.id = pk
    · have huw : u = w := by
        rw [findUser, List.find?_cons_of_pos _ (by simp [hw])] at h
        exact (Option.some.inj h).symm
      have hsave : saveUser (w :: ws) v = v :: saveUser ws v := by
        simp [saveUser, List.map_cons, hv, hu, hw]
      rw [hsave, findUser, List.find?_cons_of_pos _ (by simp [hv, hu])]
    · have h' : findUser ws pk = some u := by
        rw [findUser, List.find?_cons_of_neg _ (by simp [hw])] at h
        exact h
      have hwv : ¬ w.id = v.id := by rw [hv, hu]; exact hw
      have := ih h'
      simp only [saveUser, List.map_cons] at this ⊢
      rw [if_neg (by simpa using hwv), findUser,
        List.find?_cons_of_neg _ (by simp [hw])]
      exact this

/-- In a table with pairwise-distinct ids, any member carrying the
looked-up id is the row `findUser` returns. -/
theorem eq_of_mem_of_findUser {db : List Account} {pk : Nat} {u v : Account}
    (hnd : (db.map Account.id).Nodup) (hu : findUser db pk = some u)
    (hv : v ∈ db) (hvid : v.id = pk) : v = u :=
  List.inj_on_of_nodup_map hnd hv (findUser_mem hu)
    (by rw [hvid, findUser_id hu])

/-- In a table with pairwise-distinct ids, saving the found row with only
its `is_active` field changed acts pointwise: the row with the target id
gets the new flag, every other row is untouched. -/
theorem saveUser_active_eq_map {db : List Account} {pk : Nat} {u : Account}
    (b : Bool) (hnd : (db.map Account.id).Nodup)
    (h : findUser db pk = some u) :
    saveUser db { u with is_active := b } =
      db.map (fun v => if v.id = pk then { v with is_active := b } else v) := by
  have hu : u.id = pk := findUser_id h
  unfold saveUser
  apply List.map_congr_left
  intro v hvmem
  by_cases hvid : v.id = pk
  · have hvu : v = u := eq_of_mem_of_findUser hnd h hvmem hvid
    subst hvu
    simp [hvid, hu]
  · have hne : ¬ v.id = ({ u with is_active := b } : Account).id := by
      simpa [hu] using hvid
    simp [hne, hvid]

/-- `activate` refuses an actor that is not a superuser or targets
itself, leaving the table untouched. -/
theorem activate_not_auth (db : List Account) (actor : Account) (pk : Nat)
    (h : actor.is_superuser = false ∨ actor.id = pk) :
    activate db actor pk = (.forbidden msgAttiva, db) := by
  rcases h with h | h <;> simp [activate, h]

/-- `deactivate` refuses the same actors as `activate`. -/
theorem deactivate_not_auth (db : List Account) (actor : Account) (pk : Nat)
    (h : actor.is_superuser = false ∨ actor.id = pk) :
    deactivate db actor pk = (.forbidden msgDisattiva, db) := by
  rcases h with h | h <;> simp [deactivate, h]

/-- An authorized `activate` reduces to the lookup-then-save tail. -/
theorem activate_auth (db : List Account) (actor : Account) (pk : Nat)
    (hsup : actor.is_superuser = true) (hne : actor.id ≠ pk) :
    activate db actor pk =
      match findUser db pk with
      | none => (.notFound msgUtenteNonTrovato, db)
      | some u => (.ok200, saveUser db { u with is_active := true }) := by
  simp [activate, hsup, hne]

/-- An authorized `deactivate` reduces to the lookup-then-save tail. -/
theorem deactivate_auth (db : List Account) (actor : Account) (pk : Nat)
    (hsup : actor.is_superuser = true) (hne : actor.id ≠ pk) :
    deactivate db actor pk =
      match findUser db pk with
      | none => (.notFound msgUtenteNonTrovato, db)
      | some u => (.ok200, saveUser db { u with is_active := false }) := by
  simp [deactivate, hsup, hne]

/-- An authorized `set_password` reduces to lookup, validation and save
(the object-permission check of `NonCancellareSuperuser` passes on POST). -/
theorem set_password_auth (hash : String → String) (db : List Account)
    (actor : Account) (pk : Nat) (pw pw2 : String)
    (h : actor.is_superuser = true ∨ actor.id = pk) :
    set_password hash db actor pk pw pw2 =
      match findUser db pk with
      | none => (.notFound msgHttp404, db)
      | some u =>
          if pw ≠ pw2 then (.validationError "password" msgPasswordMismatch, db)
          else (.ok200, saveUser db { u with password := hash pw }) := by
  rcases h with h | h <;>
    simp [set_password, h, nonCancellareSuperuser_has_object_permission]

/-- C3: for every weekly-schedule row, a band with a missing endpoint has
duration zero; with both endpoints present the duration is end minus start
when the end is not earlier than the start, and (24h - start) + end when the
end is strictly earlier (midnight crossing); every band duration is
nonnegative; and `ore_giorno` is the sum of the three band durations in
decimal hours (seconds divided by 3600). -/
theorem C3_band_duration_policy (o : OrariContrattuali) :
    (∀ s : Option (Fin secondsPerDay),
        OrariContrattuali.calculate_duration s none = 0 ∧
        OrariContrattuali.calculate_duration none s = 0) ∧
    (∀ s e : Fin secondsPerDay, (s : Int) ≤ (e : Int) →
        OrariContrattuali.calculate_duration (some s) (some e) =
          (e : Int) - (s : Int)) ∧
    (∀ s e : Fin secondsPerDay, (e : Int) < (s : Int) →
        OrariContrattuali.calculate_duration (some s) (some e) =
          ((secondsPerDay : Int) - (s : Int)) + (e : Int)) ∧
    (∀ s e : Option (Fin secondsPerDay),
        0 ≤ OrariContrattuali.calculate_duration s e) ∧
    o.ore_giorno =
      ((OrariContrattuali.calculate_duration o.f1_start o.f1_end +
        OrariContrattuali.calculate_duration o.f2_start o.f2_end +
        OrariContrattuali.calculate_duration o.f3_start o.f3_end : Int) : ℚ) /
        3600 := by
  refine ⟨?_, ?_, ?_, ?_, rfl⟩
  · intro s
    exact ⟨by cases s <;> rfl, rfl⟩
  · intro s e h
    simp [OrariContrattuali.calculate_duration, not_lt.mpr h]
  · intro s e h
    simp only [OrariContrattuali.calculate_duration, if_pos h]
    ring
  · intro s e
    match s, e with
    | none, _ => simp [OrariContrattuali.calculate_duration]
    | some s, none => simp [OrariContrattuali.calculate_duration]
    | some s, some e =>
      have hs : (s : Int) < ((secondsPerDay : Nat) : Int) := by
        exact_mod_cast s.isLt
      have he : (0 : Int) ≤ (e : Int) := Int.ofNat_nonneg _
      simp only [OrariContrattuali.calculate_duration]
      split <;> omega

/-- Witness for C3: the morning band of `orario1` (09:00 before 13:00), a
night band from 22:00 to 02:00 crossing midnight, and the day total of
`orario1`. -/
theorem C3_band_duration_policy_witness :
    ((t0900 : Int) ≤ (t1300 : Int)) ∧
    OrariContrattuali.calculate_duration (some t0900) (some t1300) =
      (t1300 : Int) - (t0900 : Int) ∧
    ((t0200 : Int) < (t2200 : Int)) ∧
    OrariContrattuali.calculate_duration (some t2200) (some t0200) =
      ((secondsPerDay : Int) - (t2200 : Int)) + (t0200 : Int) ∧
    orario1.ore_giorno =
      ((OrariContrattuali.calculate_duration orario1.f1_start orario1.f1_end +
        OrariContrattuali.calculate_duration orario1.f2_start orario1.f2_end +
        OrariContrattuali.calculate_duration orario1.f3_start orario1.f3_end :
          Int) : ℚ) / 3600 :=
  ⟨by decide,
   (C3_band_duration_policy orario1).2.1 t0900 t1300 (by decide),
   by decide,
   (C3_band_duration_policy orario1).2.2.1 t2200 t0200 (by decide),
   (C3_band_duration_policy orario1).2.2.2.2⟩

/-- C8: for every overtime record, `ore_svolte` is `(fine - inizio)` in
decimal hours when both timestamps are present and `fine` is strictly after
`inizio`, and `0` when a timestamp is missing or `fine ≤ inizio`; it is
never negative. -/
theorem C8_overtime_hours (s : Straordinario) :
    (∀ i f : Int, s.inizio = some i → s.fine = some f → i < f →
        s.ore_svolte = ((f - i : Int) : ℚ) / 3600) ∧
    ((s.inizio = none ∨ s.fine = none ∨
        ∀ i f : Int, s.inizio = some i → s.fine = some f → f ≤ i) →
        s.ore_svolte = 0) ∧
    0 ≤ s.ore_svolte := by
  refine ⟨?_, ?_, ?_⟩
  · intro i f hi hf hlt
    simp [Straordinario.ore_svolte, Straordinario.delta, hi, hf, hlt]
  · intro h
    rcases h with h | h | h
    · simp [Straordinario.ore_svolte, Straordinario.delta, h]
    · cases hi : s.inizio <;>
        simp [Straordinario.ore_svolte, Straordinario.delta, h, hi]
    · cases hi : s.inizio with
      | none => simp [Straordinario.ore_svolte, Straordinario.delta, hi]
      | some i =>
        cases hf : s.fine with
        | none => simp [Straordinario.ore_svolte, Straordinario.delta, hi, hf]
        | some f =>
          simp [Straordinario.ore_svolte, Straordinario.delta, hi, hf,
            not_lt.mpr (h i f hi hf)]
  · have hd : 0 ≤ s.delta := by
      unfold Straordinario.delta
      cases hi : s.inizio with
      | none => simp
      | some i =>
        cases hf : s.fine with
        | none => simp
        | some f => split <;> omega
    have hq : (0 : ℚ) ≤ ((s.delta : Int) : ℚ) := by exact_mod_cast hd
    exact div_nonneg hq (by norm_num)

/-- Witness for C8: a ninety-minute overtime record evaluates to its
interval in decimal hours and is nonnegative; a record with no end
timestamp evaluates to zero. -/
theorem C8_overtime_hours_witness :
    straordinario1.inizio = some 0 ∧ straordinario1.fine = some 5400 ∧
    ((0 : Int) < 5400) ∧
    straordinario1.ore_svolte = ((5400 - 0 : Int) : ℚ) / 3600 ∧
    0 ≤ straordinario1.ore_svolte ∧
    Straordinario.ore_svolte
      { contratto := 1, inizio := some 0, fine := none } = 0 :=
  ⟨rfl, rfl, by decide,
   (C8_overtime_hours straordinario1).1 0 5400 rfl rfl (by decide),
   (C8_overtime_hours straordinario1).2.2,
   (C8_overtime_hours { contratto := 1, inizio := some 0, fine := none }).2.1
     (Or.inr (Or.inl rfl))⟩

/-- C1 counterexample: `assenzaPiena` has its date set and a valid two-hour
`inizio`/`fine` interval, yet — because its `giornata_intera` flag is true —
`ore` takes the full-day branch (here the empty schedule table yields `0`)
instead of the claimed `(fine - inizio)` in decimal hours.  The partial
branch therefore does not win regardless of the flag: it is gated on the
flag being false. -/
theorem C1_partial_priority_counterexample :
    assenzaPiena.data = some 1 ∧ assenzaPiena.inizio = some 0 ∧
    assenzaPiena.fine = some 7200 ∧ ((0 : Int) < 7200) ∧
    Assenza.ore [] assenzaPiena ≠ ((7200 - 0 : Int) : ℚ) / 3600 := by
  refine ⟨rfl, rfl, rfl, by decide, ?_⟩
  have h : Assenza.ore [] assenzaPiena = 0 := rfl
  rw [h]
  norm_num

/-- C1 (amended): for every absence record with a date and both timestamps
present with `fine` strictly after `inizio`, `ore` is `(fine - inizio)` in
decimal hours when `giornata_intera` is false; when `giornata_intera` is
true the full-day schedule branch is taken instead, ignoring the stored
interval (the result is the same as with no interval at all). -/
theorem C1_partial_interval_hours (db : List OrariContrattuali) (a : Assenza)
    (d : Nat) (i f : Int) (hd : a.data = some d) (hi : a.inizio = some i)
    (hf : a.fine = some f) (hlt : i < f) :
    (a.giornata_intera = false →
        Assenza.ore db a = ((f - i : Int) : ℚ) / 3600) ∧
    (a.giornata_intera = true →
        Assenza.ore db a =
          Assenza.ore db { a with inizio := none, fine := none }) := by
  constructor
  · intro hg
    simp [Assenza.ore, hd, hg, hi, hf, hlt]
  · intro hg
    simp [Assenza.ore, hd, hg, hi, hf]

/-- Witness for C1: the two-hour part-day absence `assenzaParziale`
evaluates to `7200 / 3600` decimal hours. -/
theorem C1_partial_interval_hours_witness :
    assenzaParziale.data = some 1 ∧ assenzaParziale.inizio = some 0 ∧
    assenzaParziale.fine = some 7200 ∧ ((0 : Int) < 7200) ∧
    assenzaParziale.giornata_intera = false ∧
    Assenza.ore [] assenzaParziale = ((7200 - 0 : Int) : ℚ) / 3600 :=
  ⟨rfl, rfl, rfl, by decide, rfl,
   (C1_partial_interval_hours [] assenzaParziale 1 0 7200 rfl rfl rfl
     (by decide)).1 rfl⟩

/-- C2: for every absence record with a date and `giornata_intera` true,
when the schedule table holds exactly the one row for the record's contract
and its weekday (Monday = 1 .. Sunday = 7, derived from the date), `ore` is
that row's `ore_giorno`; when it holds no such row, `ore` is `0` — the
lookup failure is caught inside `ore`, which is a total function, so no
exception reaches the caller. -/
theorem C2_full_day_schedule (db : List OrariContrattuali) (a : Assenza)
    (d : Nat) (hd : a.data = some d) (hg : a.giornata_intera = true) :
    (∀ o : OrariContrattuali,
        db.filter (fun x => x.contratto == a.contratto &&
          x.dow == ((d - 1) % 7 + 1)) = [o] →
        Assenza.ore db a = o.ore_giorno) ∧
    (db.filter (fun x => x.contratto == a.contratto &&
        x.dow == ((d - 1) % 7 + 1)) = [] →
        Assenza.ore db a = 0) := by
  constructor
  · intro o hfilter
    simp [Assenza.ore, hd, hg, orariGet, hfilter]
  · intro hfilter
    simp [Assenza.ore, hd, hg, orariGet, hfilter]

/-- Witness for C2: the Monday full-day absence `assenzaIntera` against the
one-row table `[orario1]` yields that row's `ore_giorno`, and against the
empty table yields `0`. -/
theorem C2_full_day_schedule_witness :
    assenzaIntera.data = some 1 ∧ assenzaIntera.giornata_intera = true ∧
    ([orario1].filter (fun x => x.contratto == assenzaIntera.contratto &&
        x.dow == ((1 - 1) % 7 + 1)) = [orario1]) ∧
    Assenza.ore [orario1] assenzaIntera = orario1.ore_giorno ∧
    Assenza.ore [] assenzaIntera = 0 :=
  ⟨rfl, rfl, by decide,
   (C2_full_day_schedule [orario1] assenzaIntera 1 rfl rfl).1 orario1
     (by decide),
   (C2_full_day_schedule [] assenzaIntera 1 rfl rfl).2 rfl⟩

/-- A failed activate/deactivate authorization means the actor is not a
superuser or targets itself. -/
theorem not_auth_cases {actor : Account} {pk : Nat}
    (h : ¬(actor.is_superuser = true ∧ actor.id ≠ pk)) :
    actor.is_superuser = false ∨ actor.id = pk := by
  by_cases hs : actor.is_superuser = true
  · right
    by_contra hne
    exact h ⟨hs, hne⟩
  · left
    simpa using hs

/-- C4: `activate` fails with Forbidden unless the actor is a superuser with
an id different from the target's; it fails with NotFound when the target id
does not resolve; on success it sets the target's `is_active` to true and
persists it.  `deactivate` obeys the identical authorization rule and on
success sets the flag to false. -/
theorem C4_activate_deactivate_contract (db : List Account) (actor : Account)
    (pk : Nat) :
    (¬(actor.is_superuser = true ∧ actor.id ≠ pk) →
        activate db actor pk = (.forbidden msgAttiva, db) ∧
        deactivate db actor pk = (.forbidden msgDisattiva, db)) ∧
    (actor.is_superuser = true → actor.id ≠ pk → findUser db pk = none →
        activate db actor pk = (.notFound msgUtenteNonTrovato, db) ∧
        deactivate db actor pk = (.notFound msgUtenteNonTrovato, db)) ∧
    (∀ u : Account, actor.is_superuser = true → actor.id ≠ pk →
        findUser db pk = some u →
        activate db actor pk =
          (.ok200, saveUser db { u with is_active := true }) ∧
        findUser (activate db actor pk).2 pk =
          some { u with is_active := true } ∧
        deactivate db actor pk =
          (.ok200, saveUser db { u with is_active := false }) ∧
        findUser (deactivate db actor pk).2 pk =
          some { u with is_active := false }) := by
  refine ⟨?_, ?_, ?_⟩
  · intro h
    exact ⟨activate_not_auth db actor pk (not_auth_cases h),
      deactivate_not_auth db actor pk (not_auth_cases h)⟩
  · intro hs hne hnone
    rw [activate_auth db actor pk hs hne, deactivate_auth db actor pk hs hne,
      hnone]
    exact ⟨rfl, rfl⟩
  · intro u hs hne hsome
    have ha := activate_auth db actor pk hs hne
    have hda := deactivate_auth db actor pk hs hne
    rw [hsome] at ha hda
    refine ⟨ha, ?_, hda, ?_⟩
    · rw [ha]
      exact findUser_saveUser _ hsome rfl
    · rw [hda]
      exact findUser_saveUser _ hsome rfl

/-- Witness for C4: the superuser `admin` activating and deactivating the
other account `mario` in the two-row table `db0`. -/
theorem C4_activate_deactivate_contract_witness :
    admin.is_superuser = true ∧ admin.id ≠ 2 ∧ findUser db0 2 = some mario ∧
    activate db0 admin 2 = (.ok200, saveUser db0 { mario with is_active := true }) ∧
    findUser (activate db0 admin 2).2 2 = some { mario with is_active := true } ∧
    deactivate db0 admin 2 = (.ok200, saveUser db0 { mario with is_active := false }) ∧
    findUser (deactivate db0 admin 2).2 2 = some { mario with is_active := false } :=
  have h := (C4_activate_deactivate_contract db0 admin 2).2.2 mario rfl
    (by decide) (by decide)
  ⟨rfl, by decide, by decide, h.1, h.2.1, h.2.2.1, h.2.2.2⟩

/-- C9: the authorization check of activate/deactivate runs before the
target lookup — an unauthorized actor gets Forbidden for every target id,
resolvable or not, and so a NotFound outcome can only reach a superuser
acting on an id other than its own. -/
theorem C9_authorization_precedes_lookup (db : List Account)
    (actor : Account) (pk : Nat) :
    (¬(actor.is_superuser = true ∧ actor.id ≠ pk) →
        activate db actor pk = (.forbidden msgAttiva, db) ∧
        deactivate db actor pk = (.forbidden msgDisattiva, db)) ∧
    (∀ m, (activate db actor pk).1 = .notFound m →
        actor.is_superuser = true ∧ actor.id ≠ pk) ∧
    (∀ m, (deactivate db actor pk).1 = .notFound m →
        actor.is_superuser = true ∧ actor.id ≠ pk) := by
  refine ⟨?_, ?_, ?_⟩
  · intro h
    exact ⟨activate_not_auth db actor pk (not_auth_cases h),
      deactivate_not_auth db actor pk (not_auth_cases h)⟩
  · intro m hm
    by_cases hauth : actor.is_superuser = true ∧ actor.id ≠ pk
    · exact hauth
    · rw [activate_not_auth db actor pk (not_auth_cases hauth)] at hm
      simp at hm
  · intro m hm
    by_cases hauth : actor.is_superuser = true ∧ actor.id ≠ pk
    · exact hauth
    · rw [deactivate_not_auth db actor pk (not_auth_cases hauth)] at hm
      simp at hm

/-- Witness for C9: the plain account `mario` is refused on the target id
99, an id that resolves to no row of `db0` at all. -/
theorem C9_authorization_precedes_lookup_witness :
    mario.is_superuser = false ∧ findUser db0 99 = none ∧
    activate db0 mario 99 = (.forbidden msgAttiva, db0) ∧
    deactivate db0 mario 99 = (.forbidden msgDisattiva, db0) :=
  have h := (C9_authorization_precedes_lookup db0 mario 99).1 (by decide)
  ⟨rfl, by decide, h.1, h.2⟩

/-- C10: on a successful activate/deactivate over a table with
pairwise-distinct ids, the resulting table is the original one with only the
target row's `is_active` flag replaced — every other field of the target and
every other row are unchanged. -/
theorem C10_activation_frame (db : List Account) (actor : Account) (pk : Nat)
    (u : Account) (hnd : (db.map Account.id).Nodup)
    (hs : actor.is_superuser = true) (hne : actor.id ≠ pk)
    (hu : findUser db pk = some u) :
    (activate db actor pk).2 =
      db.map (fun v => if v.id = pk then { v with is_active := true } else v) ∧
    (deactivate db actor pk).2 =
      db.map (fun v => if v.id = pk then { v with is_active := false } else v) := by
  have ha := activate_auth db actor pk hs hne
  have hda := deactivate_auth db actor pk hs hne
  rw [hu] at ha hda
  rw [ha, hda]
  exact ⟨saveUser_active_eq_map true hnd hu, saveUser_active_eq_map false hnd hu⟩

/-- Witness for C10: activating and deactivating `mario` in `db0` touches
only that row's `is_active` flag. -/
theorem C10_activation_frame_witness :
    (db0.map Account.id).Nodup ∧ admin.is_superuser = true ∧ admin.id ≠ 2 ∧
    findUser db0 2 = some mario ∧
    (activate db0 admin 2).2 =
      db0.map (fun v => if v.id = 2 then { v with is_active := true } else v) ∧
    (deactivate db0 admin 2).2 =
      db0.map (fun v => if v.id = 2 then { v with is_active := false } else v) :=
  have h := C10_activation_frame db0 admin 2 mario (by decide) rfl (by decide)
    (by decide)
  ⟨by decide, rfl, by decide, by decide, h.1, h.2⟩

/-- C5: deleting an account whose `is_superuser` flag is true never removes
the row, but it does not uniformly fail with Forbidden: a non-staff actor is
refused by `IsAdminUser` (403), while a staff actor reaches
`NonCancellareSuperuser.has_object_permission`, which raises the builtin
`PermissionError` — an exception the framework does not translate into a
403, so the request ends in a server error instead of the Forbidden the
claim (and the permission's own comment, which says `return False`)
describe. -/
theorem C5_superuser_delete_blocked (db : List Account) (actor : Account)
    (pk : Nat) (u : Account) (hu : findUser db pk = some u)
    (hsup : u.is_superuser = true) :
    (destroy db actor pk).2 = db ∧
    (actor.is_staff = false →
        (destroy db actor pk).1 = .forbidden msgPermissionDenied) ∧
    (actor.is_staff = true →
        (destroy db actor pk).1 = .serverError msgNonCancellareSuperuser) := by
  refine ⟨?_, ?_, ?_⟩
  · cases hstaff : actor.is_staff <;>
      simp [destroy, hstaff, nonCancellareSuperuser_has_permission,
        nonCancellareSuperuser_has_object_permission, hu, hsup]
  · intro hstaff
    simp [destroy, hstaff, nonCancellareSuperuser_has_permission]
  · intro hstaff
    simp [destroy, hstaff, nonCancellareSuperuser_has_permission,
      nonCancellareSuperuser_has_object_permission, hu, hsup]

/-- Witness for C5: deleting the superuser `capo` out of `db1` leaves the
table unchanged for both the staff actor `admin` (server error, not
Forbidden) and the plain actor `mario` (Forbidden). -/
theorem C5_superuser_delete_blocked_witness :
    findUser db1 3 = some capo ∧ capo.is_superuser = true ∧
    admin.is_staff = true ∧ mario.is_staff = false ∧
    (destroy db1 admin 3).2 = db1 ∧
    (destroy db1 admin 3).1 = .serverError msgNonCancellareSuperuser ∧
    (destroy db1 mario 3).2 = db1 ∧
    (destroy db1 mario 3).1 = .forbidden msgPermissionDenied :=
  have h1 := C5_superuser_delete_blocked db1 admin 3 capo (by decide) rfl
  have h2 := C5_superuser_delete_blocked db1 mario 3 capo (by decide) rfl
  ⟨by decide, rfl, rfl, rfl, h1.1, h1.2.2 rfl, h2.1, h2.2.1 rfl⟩

/-- C6: `set_password` is authorized exactly when the actor is a superuser
or is the target itself; a mismatch of the two password fields fails with a
validation error on the `password` field and leaves the table unchanged; on
success the target's stored credential becomes the hash of the new
password. -/
theorem C6_set_password_contract (hash : String → String) (db : List Account)
    (actor : Account) (pk : Nat) (pw pw2 : String) :
    (¬(actor.is_superuser = true ∨ actor.id = pk) →
        set_password hash db actor pk pw pw2 =
          (.forbidden msgSetPassword, db)) ∧
    (∀ m, (set_password hash db actor pk pw pw2).1 = .forbidden m →
        ¬(actor.is_superuser = true ∨ actor.id = pk)) ∧
    (∀ u : Account, (actor.is_superuser = true ∨ actor.id = pk) →
        findUser db pk = some u →
        (pw ≠ pw2 →
            set_password hash db actor pk pw pw2 =
              (.validationError "password" msgPasswordMismatch, db)) ∧
        (pw = pw2 →
            (set_password hash db actor pk pw pw2).1 = .ok200 ∧
            findUser (set_password hash db actor pk pw pw2).2 pk =
              some { u with password := hash pw })) := by
  refine ⟨?_, ?_, ?_⟩
  · intro h
    push_neg at h
    obtain ⟨hs, hid⟩ := h
    have hs' : actor.is_superuser = false := by simpa using hs
    simp [set_password, hs', hid]
  · intro m hm
    by_cases hauth : actor.is_superuser = true ∨ actor.id = pk
    · exfalso
      rw [set_password_auth hash db actor pk pw pw2 hauth] at hm
      cases hfind : findUser db pk with
      | none => rw [hfind] at hm; simp at hm
      | some u =>
        rw [hfind] at hm
        by_cases hpw : pw = pw2
        · simp [hpw] at hm
        · simp [hpw] at hm
    · exact hauth
  · intro u hauth hfind
    have hsp := set_password_auth hash db actor pk pw pw2 hauth
    rw [hfind] at hsp
    constructor
    · intro hpw
      rw [hsp]
      simp [hpw]
    · intro hpw
      rw [hsp]
      simp only [hpw, ne_eq, not_true_eq_false, if_false]
      exact ⟨by trivial, findUser_saveUser _ hfind rfl⟩

/-- Witness for C6: `mario` changing its own password — a mismatched
confirmation is rejected with no state change, a matching one stores the
hashed credential. -/
theorem C6_set_password_contract_witness :
    (mario.is_superuser = true ∨ mario.id = 2) ∧ findUser db0 2 = some mario ∧
    ("a" ≠ "b") ∧
    set_password (fun s => String.append s "#") db0 mario 2 "a" "b" =
      (.validationError "password" msgPasswordMismatch, db0) ∧
    (set_password (fun s => String.append s "#") db0 mario 2 "a" "a").1 =
      .ok200 ∧
    findUser (set_password (fun s => String.append s "#") db0 mario 2
        "a" "a").2 2 =
      some { mario with password := String.append "a" "#" } :=
  have h := (C6_set_password_contract (fun s => String.append s "#") db0
    mario 2 "a" "b").2.2 mario (Or.inr rfl) (by decide)
  have h2 := (C6_set_password_contract (fun s => String.append s "#") db0
    mario 2 "a" "a").2.2 mario (Or.inr rfl) (by decide)
  ⟨Or.inr rfl, by decide, by decide, h.1 (by decide), (h2.2 rfl).1,
    (h2.2 rfl).2⟩

/-- C7: registration is declared public (`AllowAny`); mismatched passwords
fail with a validation error on the `password` field and create no account;
on success exactly one account is appended, carrying the supplied profile
fields and the hashed password, and the response is the created account's
public view — a view that does not depend on the stored credential at
all. -/
theorem C7_registration_contract (hash : String → String) (db : List Account)
    (newId : Nat) (p : RegistrazionePayload) :
    get_permissions ViewAction.registra = [PermClass.allowAny] ∧
    (p.password ≠ p.password2 →
        registra hash db newId p =
          (.validationError "password" msgPasswordMismatch, db)) ∧
    (p.password = p.password2 →
        registra hash db newId p =
          (.created (utenteDettaglio (create_user newId hash p)),
            db ++ [create_user newId hash p]) ∧
        (db ++ [create_user newId hash p]).length = db.length + 1 ∧
        (create_user newId hash p).password = hash p.password ∧
        (create_user newId hash p).username = p.username) ∧
    (∀ u : Account, ∀ c : String,
        utenteDettaglio { u with password := c } = utenteDettaglio u) := by
  refine ⟨rfl, ?_, ?_, fun u c => rfl⟩
  · intro h
    simp [registra, h]
  · intro h
    refine ⟨?_, by simp, rfl, rfl⟩
    simp [registra, h]

/-- Witness for C7: the mismatched payload is rejected over the empty table
(which stays empty), the matching payload creates the one account with the
hashed password. -/
theorem C7_registration_contract_witness :
    get_permissions ViewAction.registra = [PermClass.allowAny] ∧
    (payloadCattiva.password ≠ payloadCattiva.password2) ∧
    registra (fun s => String.append s "#") [] 7 payloadCattiva =
      (.validationError "password" msgPasswordMismatch, []) ∧
    (payloadBuona.password = payloadBuona.password2) ∧
    registra (fun s => String.append s "#") [] 7 payloadBuona =
      (.created (utenteDettaglio
          (create_user 7 (fun s => String.append s "#") payloadBuona)),
        [create_user 7 (fun s => String.append s "#") payloadBuona]) ∧
    (create_user 7 (fun s => String.append s "#") payloadBuona).password =
      String.append "p1" "#" :=
  have hbad := (C7_registration_contract (fun s => String.append s "#") [] 7
    payloadCattiva).2.1
  have hgood := (C7_registration_contract (fun s => String.append s "#") [] 7
    payloadBuona).2.2.1
  ⟨rfl, by decide, hbad (by decide), rfl, (hgood rfl).1, (hgood rfl).2.2.1⟩
